import Mathlib

/-!
Verification development for the autonomous batch-evaluation orchestration core:
a shallow embedding of the batch-state data model, the decision procedure, the
orchestrator, the recovery sweep and the scheduler, with theorems checking the
natural-language specification against the embedded code.

Modelling conventions:
* timestamps are UTC instants measured in whole seconds, embedded as `Int`;
  a calendar day is the instant of its midnight, so normalizing a timestamp
  to the start of its day is flooring to a multiple of 86400;
* Python floats are embedded as exact fractions (`PyRat`: an integer
  numerator over a positive integer denominator, compared by value through
  `PyRat.eqv` and ordered by cross-multiplication — all arithmetic the
  claims touch is exact decimal arithmetic, where binary float rounding
  plays no role);
* Python `round(x, n)` is embedded as floor(x·10^n + 1/2)/10^n (the inputs
  reached by the claims are never exact ties, the one place Python's
  round-half-even could differ);
* fallible steps return `Except PyError _`; an uncaught Python exception is
  an `Except.error`.
-/

namespace BatchEval

/-- UTC instant in whole seconds. -/
abbrev Timestamp := Int

/-- Seconds in one calendar day. -/
def secondsPerDay : Int := 86400

/-- `BatchStatus` from models/batch_state.py. -/
inductive BatchStatus where
  | pending
  | running
  | completed
  | failed
  | partialDone
  | skipped
  | cancelled
deriving DecidableEq, Repr

/-- `BatchStatus.is_terminal`: COMPLETED, SKIPPED and CANCELLED are terminal. -/
def BatchStatus.is_terminal : BatchStatus → Bool
  | .completed => true
  | .skipped => true
  | .cancelled => true
  | _ => false

/-- `BatchStatus.can_retry`: the status is FAILED, PARTIAL or PENDING. -/
def BatchStatus.can_retry : BatchStatus → Bool
  | .failed => true
  | .partialDone => true
  | .pending => true
  | _ => false

/-- A Python exception, reduced to its class name and message. -/
structure PyError where
  etype : String
  message : String
deriving DecidableEq, Repr

/-- The exact value of a Python float computation: an integer numerator
over a denominator that is positive in every value the embedded code
builds. The representation is not normalized; values are compared with
`PyRat.eqv` and ordered by cross-multiplication. -/
structure PyRat where
  num : Int
  den : Int
deriving DecidableEq, Repr

/-- A whole number as a `PyRat`. -/
def PyRat.ofNat (n : Nat) : PyRat :=
  ⟨(n : Int), 1⟩

/-- Exact division of Python numbers. -/
def PyRat.div (a b : PyRat) : PyRat :=
  ⟨a.num * b.den, a.den * b.num⟩

/-- Exact multiplication of Python numbers. -/
def PyRat.mul (a b : PyRat) : PyRat :=
  ⟨a.num * b.num, a.den * b.den⟩

/-- Value equality of two fractions (both denominators positive). -/
def PyRat.eqv (a b : PyRat) : Prop :=
  a.num * b.den = b.num * a.den

instance (a b : PyRat) : Decidable (a.eqv b) :=
  inferInstanceAs (Decidable (a.num * b.den = b.num * a.den))

/-- The Python `<` on exact float values (both denominators positive). -/
instance : LT PyRat :=
  ⟨fun a b => a.num * b.den < b.num * a.den⟩

instance (a b : PyRat) : Decidable (a < b) :=
  inferInstanceAs (Decidable (a.num * b.den < b.num * a.den))

/-- Python `round(x, n)` for a scale `k = 10^n`:
floor(x·k + 1/2) over k, computed on the fraction's integer components. -/
def roundToScale (k : Int) (q : PyRat) : PyRat :=
  ⟨(2 * k * q.num + q.den).fdiv (2 * q.den), k⟩

/-- Python `round(x, 2)`. -/
def round2 (q : PyRat) : PyRat :=
  roundToScale 100 q

/-- Python `round(x, 4)`. -/
def round4 (q : PyRat) : PyRat :=
  roundToScale 10000 q

/-- `BatchState` from models/batch_state.py (the fields the orchestration
core reads or writes; purely diagnostic fields such as `error_details`,
`tags` and the free-form `metadata` map are omitted). -/
structure BatchState where
  batch_date : Int
  batch_id : Option String := none
  status : BatchStatus := .pending
  previous_status : Option BatchStatus := none
  created_at : Timestamp
  updated_at : Timestamp
  started_at : Option Timestamp := none
  completed_at : Option Timestamp := none
  failed_at : Option Timestamp := none
  retry_count : Nat := 0
  max_retries : Nat := 3
  last_retry_at : Option Timestamp := none
  retry_after : Option Timestamp := none
  error_message : Option String := none
  error_type : Option String := none
  total_pairs : Nat := 0
  processed_pairs : Nat := 0
  successful_evaluations : Nat := 0
  failed_evaluations : Nat := 0
  error_evaluations : Nat := 0
  passed : Nat := 0
  failed : Nat := 0
  accuracy : Option PyRat := none
  report_path : Option String := none
  report_generated : Bool := false
  email_sent : Bool := false
  email_recipients : List String := []
  is_recovery : Bool := false
  recovery_attempted : Bool := false
  recovery_count : Nat := 0
deriving DecidableEq, Repr

/-- The `normalize_batch_date` validator: truncate a timestamp to 00:00:00
of its day. -/
def normalize_batch_date (t : Timestamp) : Int :=
  secondsPerDay * (t.fdiv secondsPerDay)

/-- A freshly created `BatchState(batch_date=d)`: all defaults. -/
def newBatchState (d : Int) (now : Timestamp) : BatchState :=
  { batch_date := d, created_at := now, updated_at := now }

/-- `BatchState.can_retry` evaluated at instant `now` (the Python method
reads `datetime.utcnow()`): retry budget left, past any retry-delay, and the
status itself retryable. -/
def BatchState.can_retry (s : BatchState) (now : Timestamp) : Bool :=
  if s.retry_count ≥ s.max_retries then false
  else
    match s.retry_after with
    | some t => if now < t then false else s.status.can_retry
    | none => s.status.can_retry

/-- `BatchState.increment_retry`. -/
def BatchState.increment_retry (s : BatchState) (now : Timestamp) : BatchState :=
  { s with retry_count := s.retry_count + 1, last_retry_at := some now, updated_at := now }

/-- `BatchState.set_error`: record the error (message truncated to 5000
characters), stamp `failed_at`, and move the status to FAILED. -/
def BatchState.set_error (s : BatchState) (e : PyError) (now : Timestamp) : BatchState :=
  { s with
    error_message := some (e.message.take 5000)
    error_type := some e.etype
    failed_at := some now
    status := .failed }

/-! ## Decision procedure (services/state_service.py, `should_process_batch`) -/

/-- Stuck threshold for a RUNNING batch: 2 hours. -/
def stuckThresholdSeconds : Int := 2 * 3600

/-- Outcome of `should_process_batch`: the decision, the reason string, the
state object after the call (mutated only in the stuck branch) and whether
that mutation was persisted through `update_batch_state`. -/
structure ShouldProcessResult where
  decision : Bool
  reason : String
  newState : BatchState
  persisted : Bool
deriving DecidableEq, Repr

/-- `StateService.should_process_batch`, on the state stored for the day,
the current instant, and the result of the `has_data_for_date` probe.
Mirrors the source's check order: COMPLETED, then RUNNING (stuck / not
stuck, only when `started_at` is set), then the retry budget, the retry
delay, the data probe, and the final affirmative branches. -/
def should_process_batch (state : BatchState) (now : Timestamp) (hasData : Bool) :
    ShouldProcessResult :=
  if state.status = .completed then
    ⟨false, "Batch already completed successfully", state, false⟩
  else
    match
      (if state.status = .running then
        match state.started_at with
        | some t0 =>
          let runtime := now - t0
          if runtime > stuckThresholdSeconds then
            let st := { state with
              status := .failed
              error_message := some "Batch stuck in RUNNING state" }
            some (⟨true, "Batch was stuck, marked as failed for retry", st, true⟩ :
              ShouldProcessResult)
          else
            some ⟨false, "Batch currently running", state, false⟩
        | none => none
      else none) with
    | some r => r
    | none =>
      if ¬ state.can_retry now then
        ⟨false, "Max retries (" ++ toString state.max_retries ++ ") exceeded", state, false⟩
      else
        match state.retry_after with
        | some t =>
          if now < t then
            ⟨false, "Retry delayed", state, false⟩
          else if ¬ hasData then
            ⟨false, "No data available for this date", state, false⟩
          else if state.status = .failed then
            ⟨true, "Retrying failed batch", state, false⟩
          else
            ⟨true, "Batch ready for processing", state, false⟩
        | none =>
          if ¬ hasData then
            ⟨false, "No data available for this date", state, false⟩
          else if state.status = .failed then
            ⟨true, "Retrying failed batch", state, false⟩
          else
            ⟨true, "Batch ready for processing", state, false⟩

/-! ## Evaluation statistics (services/evaluation_service.py, models/evaluation.py) -/

/-- `EvaluationStatus` of a single pair. -/
inductive EvaluationStatus where
  | pass
  | fail
  | error
deriving DecidableEq, Repr

/-- `BatchEvaluation` from models/evaluation.py (aggregate fields). -/
structure BatchEvaluation where
  batch_id : String
  total_evaluations : Nat
  passed : Nat
  failed : Nat
  errors : Nat
  pass_percentage : PyRat
  fail_percentage : PyRat
  error_percentage : PyRat
  accuracy : PyRat
deriving DecidableEq, Repr

/-- Constructing a `BatchEvaluation` runs its pydantic validators:
`validate_percentages` rounds each percentage to 2 decimals, and
`validate_accuracy` REPLACES the supplied accuracy with
`round(passed / total_evaluations, 4)` whenever `total_evaluations > 0`
(the field order puts `total_evaluations` and `passed` in `values` when the
`accuracy` validator runs). -/
def mkBatchEvaluation (batch_id : String) (total passedN failedN errorsN : Nat)
    (pass_pct fail_pct err_pct accuracy_in : PyRat) : BatchEvaluation :=
  { batch_id := batch_id
    total_evaluations := total
    passed := passedN
    failed := failedN
    errors := errorsN
    pass_percentage := round2 pass_pct
    fail_percentage := round2 fail_pct
    error_percentage := round2 err_pct
    accuracy :=
      if total > 0 then round4 ((PyRat.ofNat passedN).div (PyRat.ofNat total))
      else accuracy_in }

/-- `EvaluationService._calculate_batch_statistics`, abstracting each
result to its status. Computes counts, percentages over the whole batch,
and an accuracy of passed / (passed + failed) with errors excluded from the
denominator, then builds the `BatchEvaluation` (whose validators run). -/
def calculate_batch_statistics (results : List EvaluationStatus) (batch_id : String) :
    BatchEvaluation :=
  let total := results.length
  if total = 0 then
    mkBatchEvaluation batch_id 0 0 0 0 (PyRat.ofNat 0) (PyRat.ofNat 0) (PyRat.ofNat 0)
      (PyRat.ofNat 0)
  else
    let passedN := (results.filter (· = .pass)).length
    let failedN := (results.filter (· = .fail)).length
    let errorsN := (results.filter (· = .error)).length
    let pass_pct := ((PyRat.ofNat passedN).div (PyRat.ofNat total)).mul (PyRat.ofNat 100)
    let fail_pct := ((PyRat.ofNat failedN).div (PyRat.ofNat total)).mul (PyRat.ofNat 100)
    let err_pct := ((PyRat.ofNat errorsN).div (PyRat.ofNat total)).mul (PyRat.ofNat 100)
    let evaluable := passedN + failedN
    let accuracy : PyRat :=
      if evaluable > 0 then (PyRat.ofNat passedN).div (PyRat.ofNat evaluable)
      else PyRat.ofNat 0
    mkBatchEvaluation batch_id total passedN failedN errorsN pass_pct fail_pct err_pct accuracy

/-! ## Orchestrator (pipeline/evaluator.py) -/

/-- Configured accuracy threshold (settings default 0.85). -/
def ACCURACY_THRESHOLD : PyRat := ⟨85, 100⟩

/-- Configured alert recipient. -/
def ALERT_EMAIL : String := "alerts"

/-- A notification handed to the email collaborator, in send order. -/
inductive Notif where
  | accuracyAlert (priority : String)
  | evaluationReport (isAlertTagged : Bool) (priority : String)
  | emptyBatchNotice (priority : String)
  | batchFailureAlert (priority : String)
deriving DecidableEq, Repr

deriving instance DecidableEq for Except

/-- What `_execute_evaluation_pipeline` leaves behind: the Python return
value or the exception that escaped, the state object as mutated up to that
point (the orchestrator holds the same object), the notifications sent, and
whether step 3 (saving evaluation results) ran. -/
structure PipelineResult where
  outcome : Except PyError BatchEvaluation
  state : BatchState
  notifications : List Notif
  resultsSaved : Bool
deriving DecidableEq, Repr

/-- `AutonomousEvaluationPipeline._execute_evaluation_pipeline`.

Inputs: the state object, the unevaluated pairs fetched for the day (each
abstracted to its judged status), an optional injected collaborator failure
(`inject = some e` models a step raising `e` at the start of the pipeline),
and the current instant.

Faithful points worth noting:
* the empty-pairs branch builds an EMPTY batch, moves the state to SKIPPED,
  persists, sends a low-priority notification and returns normally;
* step 5 computes the batch accuracy check ONCE; the send of the evaluation
  report, the `email_sent := true` update and the `email_duration`
  assignment are all nested INSIDE the `accuracy < threshold` branch, so a
  batch at or above the threshold sends nothing there — and the metadata
  update that follows reads the local `email_duration`, which was never
  assigned on that path, so Python raises `NameError` there. -/
def execute_evaluation_pipeline (state : BatchState) (pairs : List EvaluationStatus)
    (inject : Option PyError) (now : Timestamp) : PipelineResult :=
  match inject with
  | some e => ⟨.error e, state, [], false⟩
  | none =>
    if pairs.isEmpty then
      let empty_batch := mkBatchEvaluation "EMPTY" 0 0 0 0 (PyRat.ofNat 0)
        (PyRat.ofNat 0) (PyRat.ofNat 0) (PyRat.ofNat 0)
      let st := { state with
        total_pairs := 0
        processed_pairs := 0
        batch_id := some empty_batch.batch_id
        status := BatchStatus.skipped
        completed_at := some now }
      ⟨.ok empty_batch, st, [.emptyBatchNotice "low"], false⟩
    else
      let st1 := { state with total_pairs := pairs.length }
      let batch := calculate_batch_statistics pairs "BATCH"
      let st2 := { st1 with
        processed_pairs := pairs.length
        successful_evaluations := batch.passed + batch.failed
        error_evaluations := batch.errors
        passed := batch.passed
        failed := batch.failed
        accuracy := some batch.accuracy
        batch_id := some batch.batch_id }
      let st3 := { st2 with report_path := some "report.xlsx", report_generated := true }
      if batch.accuracy < ACCURACY_THRESHOLD then
        let st4 := { st3 with email_sent := true, email_recipients := [ALERT_EMAIL] }
        ⟨.ok batch, st4,
          [.accuracyAlert "high", .evaluationReport true "high"], true⟩
      else
        ⟨.error ⟨"NameError", "name email_duration is not defined"⟩, st3, [], true⟩

/-- What one `run_daily_evaluation` call leaves behind: the returned
boolean, the state persisted at the RUNNING transition (none when the
decision procedure declined), the state persisted by the final
`finally` block (none when the decision procedure declined, since the
early return precedes the try/finally), the notifications sent, and
whether evaluation results were saved. -/
structure RunResult where
  returnValue : Bool
  runningPersist : Option BatchState
  finalState : Option BatchState
  notifications : List Notif
  resultsSaved : Bool
deriving DecidableEq, Repr

/-- `AutonomousEvaluationPipeline.run_daily_evaluation` on the state read
by `get_or_create_batch_state` for the (normalized) day, the data probe
result, the fetched pairs, an optional injected collaborator failure and
the current instant.

Faithful points worth noting:
* the local `state` object is the one read up front; mutations the
  decision procedure persisted in its stuck branch are not reflected in it;
* the transition to RUNNING assigns `status := RUNNING` and `started_at`
  FIRST, and only then tests `status == FAILED` to decide whether to
  increment the retry count — so that test compares against RUNNING;
* after a normal pipeline return the orchestrator stamps COMPLETED and
  `completed_at` over whatever status the pipeline left (including the
  SKIPPED of the empty-pairs branch);
* any exception is absorbed: `set_error`, a backoff `retry_after` when the
  state can still retry, a failure alert, and `return False`;
* the `finally` block persists the state object one last time either way. -/
def run_daily_evaluation (state0 : BatchState) (hasData : Bool)
    (pairs : List EvaluationStatus) (inject : Option PyError) (now : Timestamp) : RunResult :=
  let sp := should_process_batch state0 now hasData
  if ¬ sp.decision then
    ⟨true, none, none, [], false⟩
  else
    let state1 := { state0 with status := BatchStatus.running, started_at := some now }
    let state2 :=
      if state1.status = .failed then state1.increment_retry now else state1
    let pr := execute_evaluation_pipeline state2 pairs inject now
    match pr.outcome with
    | .ok _ =>
      let stDone := { pr.state with status := BatchStatus.completed, completed_at := some now }
      ⟨true, some state2, some stDone, pr.notifications, pr.resultsSaved⟩
    | .error e =>
      let stErr := pr.state.set_error e now
      let stErr2 :=
        if stErr.can_retry now then
          let delay_minutes : Nat := min (5 * 2 ^ stErr.retry_count) 60
          { stErr with retry_after := some (now + 60 * (delay_minutes : Int)) }
        else stErr
      ⟨false, some state2, some stErr2,
        pr.notifications ++ [.batchFailureAlert "high"], pr.resultsSaved⟩

/-! ## State store (services/state_service.py, `get_or_create_batch_state`)

The store is the `batch_states` collection: a list of records with a unique
index on `batch_date`. `find_one` returns the first record for a key;
`insert_one` is the atomic conditional insert the unique index gives: it
fails with `DuplicateKeyError` when a record with the key already exists. -/

/-- `find_one` on the `batch_states` collection by (already normalized)
batch date. -/
def find_one (store : List BatchState) (d : Int) : Option BatchState :=
  store.find? (fun r => r.batch_date = d)

/-- `insert_one` against the unique index on `batch_date`: atomically
either appends the record or fails with `DuplicateKeyError`. -/
def insert_one (store : List BatchState) (s : BatchState) : Except Unit (List BatchState) :=
  if (find_one store s.batch_date).isSome then .error () else .ok (store ++ [s])

/-- `StateService.get_or_create_batch_state`, one call under concurrency.

A call performs two store operations: a `find_one` and (on a miss) an
`insert_one`; other callers may commit between the two. `snapshot` is the
store the initial `find_one` ran against and `current` the store at the
instant of the insert attempt; in a grow-only store the snapshot's records
are among `current`'s. The normalized day is looked up in the snapshot; on
a miss a fresh PENDING record is inserted into the current store, and a
`DuplicateKeyError` is resolved by re-reading the existing record, never by
inserting again. Returns the record handed to the caller and the store
after the call. -/
def get_or_create_batch_state (snapshot current : List BatchState) (d0 : Int)
    (now : Timestamp) : BatchState × List BatchState :=
  let d := normalize_batch_date d0
  match find_one snapshot d with
  | some doc => (doc, current)
  | none =>
    let state := newBatchState d now
    match insert_one current state with
    | .ok store2 => (state, store2)
    | .error _ =>
      match find_one current d with
      | some doc => (doc, current)
      | none => (state, current)

/-- At most one record per batch date. -/
def uniqueByDate (store : List BatchState) : Prop :=
  store.Pairwise (fun a b => a.batch_date ≠ b.batch_date)

/-! ## Recovery manager (pipeline/recovery_manager.py) -/

/-- Is a RUNNING record stuck: `started_at` set and more than 2 hours ago. -/
def isStuck (st : BatchState) (now : Timestamp) : Bool :=
  match st.started_at with
  | some t0 => now - t0 > stuckThresholdSeconds
  | none => false

/-- The per-day branch of `RecoveryManager._find_missing_evaluations`:
does this day need evaluation, given its state and the data probe.
Mirrors the source's if/elif chain: COMPLETED and SKIPPED are skipped;
FAILED and PARTIAL need evaluation only when `can_retry`; PENDING needs
evaluation only when the data probe confirms input; RUNNING needs
evaluation only when stuck; any other status (CANCELLED) falls through
with `needs_evaluation` still false. -/
def needs_evaluation (st : BatchState) (hasData : Bool) (now : Timestamp) : Bool :=
  if st.status = .completed then false
  else if st.status = .skipped then false
  else if st.status = .failed ∨ st.status = .partialDone then st.can_retry now
  else if st.status = .pending then hasData
  else if st.status = .running then isStuck st now
  else false

/-- `RecoveryManager._find_missing_evaluations` over a lookback window:
scan the days in order, get-or-create each day's state, and collect the
days whose branch sets `needs_evaluation`. `info d` is the day's stored
(or freshly created) state together with its data-probe result. -/
def find_missing_evaluations (days : List Int) (info : Int → BatchState × Bool)
    (now : Timestamp) : List Int :=
  days.filter (fun d => needs_evaluation (info d).1 (info d).2 now)

/-- What `RecoveryManager._recover_single_batch` decides for a day before
any orchestrator call. -/
inductive RecoverAction where
  | alreadyCompleted
  | maxRetryAlert
  | invokeOrchestrator
deriving DecidableEq, Repr

/-- The double-check at the head of `RecoveryManager._recover_single_batch`
(it re-reads the day's state and re-tests it, independently of the scan
that selected the day): a COMPLETED day returns true untouched; a day whose
`can_retry` is false gets a critical max-retry alert and returns false,
never reaching the orchestrator; only otherwise are the recovery fields
marked, the state persisted, and `run_daily_evaluation` invoked. -/
def recover_single_action (st : BatchState) (now : Timestamp) : RecoverAction :=
  if st.status = .completed then .alreadyCompleted
  else if ¬ st.can_retry now then .maxRetryAlert
  else .invokeOrchestrator

/-- `RecoveryManager.recover_all_missed_batches`: the days on which the
orchestrator's `run_daily_evaluation` is actually invoked, in invocation
order. The scan's missing days are attempted sorted chronologically, and
each attempt passes through `_recover_single_batch`, whose double-check
drops the days whose stored state is COMPLETED or cannot retry. -/
def recover_all_missed_batches (days : List Int) (info : Int → BatchState × Bool)
    (now : Timestamp) : List Int :=
  ((find_missing_evaluations days info now).mergeSort (· ≤ ·)).filter
    (fun d => recover_single_action (info d).1 now = .invokeOrchestrator)

/-- The eligibility rule as the specification words it, for comparison
with `needs_evaluation`: COMPLETED and SKIPPED days excluded, FAILED and
PARTIAL days included only if they can retry, PENDING days included only
if the data probe confirms input exists, stuck RUNNING days included. -/
def eligibleSpec (st : BatchState) (hasData : Bool) (now : Timestamp) : Bool :=
  match st.status with
  | .completed => false
  | .skipped => false
  | .failed => st.can_retry now
  | .partialDone => st.can_retry now
  | .pending => hasData
  | .running => isStuck st now
  | .cancelled => false

/-! ## Scheduler (pipeline/scheduler.py, `_calculate_next_run`) -/

/-- The configured daily fire time, seconds after midnight. -/
def runTimeSeconds (hour minute : Nat) : Int :=
  3600 * (hour : Int) + 60 * (minute : Int)

/-- `AutonomousScheduler._calculate_next_run`: replace the current time's
clock with the configured fire time; if that instant has already been
reached or passed, move to tomorrow. -/
def calculate_next_run (hour minute : Nat) (now : Timestamp) : Timestamp :=
  let next_run := normalize_batch_date now + runTimeSeconds hour minute
  if now ≥ next_run then next_run + secondsPerDay else next_run

/-! ## Concrete fixtures used by the theorems -/

/-- Scenario window for C7: three consecutive days. -/
def scenarioDays : List Int := [0, secondsPerDay, 2 * secondsPerDay]

/-- Scenario states for C7: day 0 COMPLETED, day 1 FAILED with its retry
budget exhausted, day 2 never touched (a fresh PENDING record) with data
present. -/
def scenarioInfo : Int → BatchState × Bool := fun d =>
  if d = 0 then ({ newBatchState 0 0 with status := .completed }, true)
  else if d = secondsPerDay then
    ({ newBatchState secondsPerDay 0 with status := .failed, retry_count := 3 }, true)
  else (newBatchState (2 * secondsPerDay) 0, true)

/-- A RUNNING record for day 0 whose `started_at` lies more than two hours
before `stuckNow`: a stuck day. -/
def stuckState : BatchState :=
  { newBatchState 0 0 with status := .running, started_at := some 0 }

/-- One-day window holding only the stuck day. -/
def stuckWindowDays : List Int := [0]

/-- The stuck-window store: the stuck RUNNING record, with data present. -/
def stuckWindowInfo : Int → BatchState × Bool := fun _ => (stuckState, true)

/-- An instant 2 hours and 100 seconds after the stuck day started. -/
def stuckNow : Timestamp := 7300

/-- A fresh PENDING state for day 0. -/
def pendingState : BatchState := newBatchState 0 0

/-- A day whose previous attempt FAILED, with no retry used yet. -/
def failedOnceState : BatchState := { newBatchState 0 0 with status := .failed }

/-- 100 judged pairs, 90 pass and 10 fail: accuracy 0.90, above the 0.85
threshold. -/
def pairsAboveThreshold : List EvaluationStatus :=
  List.replicate 90 .pass ++ List.replicate 10 .fail

/-- The specification's scenario batch: 100 judged pairs, 80 pass, 15 fail,
5 error. -/
def pairsScenario : List EvaluationStatus :=
  List.replicate 80 .pass ++ List.replicate 15 .fail ++ List.replicate 5 .error

/-! ## Theorems -/

/-- C5: a RUNNING state whose `started_at` is more than 2 hours before
`now` is marked FAILED with an explanatory error message, the mutation is
persisted, and the decision is `true` with the "was stuck" reason — for
every retry count, retry delay and data-probe outcome, so before any
retry-limit, retry-delay or data-existence check can intervene; a RUNNING
state not past the threshold yields `false` with the "currently running"
reason. -/
theorem C5_stuck_running_detection (state : BatchState) (now t0 : Timestamp)
    (hasData : Bool) (hrun : state.status = .running) (hst : state.started_at = some t0) :
    (now - t0 > stuckThresholdSeconds →
      should_process_batch state now hasData =
        ⟨true, "Batch was stuck, marked as failed for retry",
          { state with
              status := .failed
              error_message := some "Batch stuck in RUNNING state" }, true⟩) ∧
    (¬ now - t0 > stuckThresholdSeconds →
      should_process_batch state now hasData =
        ⟨false, "Batch currently running", state, false⟩) := by
  constructor
  · intro h
    simp [should_process_batch, hrun, hst, h]
  · intro h
    simp [should_process_batch, hrun, hst, h]

/-- Witness for C5 at a concrete stuck state and a concrete fresh state. -/
theorem C5_stuck_running_detection_witness :
    should_process_batch { newBatchState 0 0 with status := .running, started_at := some 0 }
        7300 true =
      ⟨true, "Batch was stuck, marked as failed for retry",
        { newBatchState 0 0 with
            status := .failed
            started_at := some 0
            error_message := some "Batch stuck in RUNNING state" }, true⟩ ∧
    should_process_batch { newBatchState 0 0 with status := .running, started_at := some 0 }
        3600 true =
      ⟨false, "Batch currently running",
        { newBatchState 0 0 with status := .running, started_at := some 0 }, false⟩ :=
  ⟨(C5_stuck_running_detection _ 7300 0 true rfl rfl).1 (by decide),
   (C5_stuck_running_detection _ 3600 0 true rfl rfl).2 (by decide)⟩

/-- C10: a RUNNING state whose `started_at` is unset falls past the stuck
branch and is rejected with the max-retries reason, because `can_retry` is
false for the RUNNING status — independently of the retry count, the retry
delay and the data probe; the state is neither mutated nor persisted. -/
theorem C10_running_without_started_at (state : BatchState) (now : Timestamp)
    (hasData : Bool) (hrun : state.status = .running) (hst : state.started_at = none) :
    should_process_batch state now hasData =
      ⟨false, "Max retries (" ++ toString state.max_retries ++ ") exceeded", state, false⟩ := by
  have hcr : state.can_retry now = false := by
    unfold BatchState.can_retry
    rw [hrun]
    cases state.retry_after <;> simp [BatchStatus.can_retry]
  simp [should_process_batch, hrun, hst, hcr]

/-- Witness for C10 at a concrete RUNNING state with no `started_at`,
with zero retries used. -/
theorem C10_running_without_started_at_witness :
    should_process_batch { newBatchState 0 0 with status := .running } 100 true =
      ⟨false, "Max retries (3) exceeded",
        { newBatchState 0 0 with status := .running }, false⟩ :=
  C10_running_without_started_at _ 100 true rfl rfl

/-- C9: the scheduler's next fire time is today's configured fire time when
the current time is strictly before it and tomorrow's otherwise; in
particular with fire time 00:01 and current time 00:01:30 of day zero the
next fire time is tomorrow at 00:01:00. -/
theorem C9_next_fire_time (hour minute : Nat) (now : Timestamp) :
    (calculate_next_run hour minute now =
      if now < normalize_batch_date now + runTimeSeconds hour minute then
        normalize_batch_date now + runTimeSeconds hour minute
      else
        normalize_batch_date now + runTimeSeconds hour minute + secondsPerDay) ∧
    calculate_next_run 0 1 90 = secondsPerDay + 60 := by
  refine ⟨?_, by decide⟩
  unfold calculate_next_run
  rcases lt_or_ge now (normalize_batch_date now + runTimeSeconds hour minute) with h | h
  · rw [if_pos h, if_neg (not_le.mpr h)]
  · rw [if_neg (not_lt.mpr h), if_pos h]

/-- In a store with at most one record per date, the records filtered by
any one date number at most one. -/
theorem uniqueByDate_filter_length_le_one (l : List BatchState) (h : uniqueByDate l)
    (d : Int) : (l.filter (fun r => r.batch_date = d)).length ≤ 1 := by
  induction l with
  | nil => simp
  | cons a t ih =>
    rcases List.pairwise_cons.mp h with ⟨ha, ht⟩
    by_cases hd : a.batch_date = d
    · have hnil : t.filter (fun r => r.batch_date = d) = [] := by
        refine List.filter_eq_nil_iff.mpr ?_
        intro b hb
        simp only [decide_eq_true_eq]
        intro hbd
        exact ha b hb (hd.trans hbd.symm)
      simp [hd, hnil]
    · simpa [hd] using ih ht

/-- Appending a record whose date is fresh preserves per-date uniqueness. -/
theorem uniqueByDate_append_singleton (l : List BatchState) (s : BatchState)
    (h : uniqueByDate l) (hfresh : ∀ r ∈ l, r.batch_date ≠ s.batch_date) :
    uniqueByDate (l ++ [s]) := by
  refine List.pairwise_append.mpr ⟨h, List.pairwise_singleton _ _, ?_⟩
  intro a ha b hb
  rw [List.mem_singleton] at hb
  subst hb
  exact hfresh a ha

/-- A record present with the looked-up date makes the filtered count
exactly one, under per-date uniqueness. -/
theorem uniqueByDate_filter_length_eq_one (l : List BatchState) (h : uniqueByDate l)
    (d : Int) (r : BatchState) (hr : r ∈ l) (hrd : r.batch_date = d) :
    (l.filter (fun r => r.batch_date = d)).length = 1 := by
  have hge : 0 < (l.filter (fun r => r.batch_date = d)).length := by
    refine List.length_pos.mpr ?_
    intro hnil
    have := List.filter_eq_nil_iff.mp hnil r hr
    simp [hrd] at this
  have hle := uniqueByDate_filter_length_le_one l h d
  omega

/-- C6: one `GetOrCreate` call under any interleaving with other callers
(any snapshot whose records are among the current grow-only store): the
store afterwards still has at most one record per date, it holds exactly
one record for the normalized requested day, and the returned record is a
store record for that day — a unique-key conflict is resolved by re-reading,
never by creating a second record. Any number of calls by any callers is a
sequence of such steps, each preserving the uniqueness hypothesis. -/
theorem C6_get_or_create_converges (snapshot current : List BatchState) (d0 : Int)
    (now : Timestamp) (hu : uniqueByDate current)
    (hsub : ∀ r ∈ snapshot, r ∈ current) :
    uniqueByDate (get_or_create_batch_state snapshot current d0 now).2 ∧
    ((get_or_create_batch_state snapshot current d0 now).2.filter
        (fun r => r.batch_date = normalize_batch_date d0)).length = 1 ∧
    (get_or_create_batch_state snapshot current d0 now).1.batch_date =
        normalize_batch_date d0 ∧
    (get_or_create_batch_state snapshot current d0 now).1 ∈
        (get_or_create_batch_state snapshot current d0 now).2 := by
  unfold get_or_create_batch_state
  cases hsnap : find_one snapshot (normalize_batch_date d0) with
  | some doc =>
    have hmem : doc ∈ current :=
      hsub doc (List.mem_of_find?_eq_some hsnap)
    have hdate : doc.batch_date = normalize_batch_date d0 := by
      have := List.find?_some hsnap
      simpa using this
    simp only [hsnap]
    exact ⟨hu, uniqueByDate_filter_length_eq_one current hu _ doc hmem hdate, hdate, hmem⟩
  | none =>
    cases hcur : find_one current (normalize_batch_date d0) with
    | some doc =>
      have hins : insert_one current (newBatchState (normalize_batch_date d0) now) =
          .error () := by
        unfold insert_one
        rw [show (newBatchState (normalize_batch_date d0) now).batch_date =
              normalize_batch_date d0 from rfl, hcur]
        rfl
      have hmem : doc ∈ current := List.mem_of_find?_eq_some hcur
      have hdate : doc.batch_date = normalize_batch_date d0 := by
        have := List.find?_some hcur
        simpa using this
      simp only [hsnap, hins, hcur]
      exact ⟨hu, uniqueByDate_filter_length_eq_one current hu _ doc hmem hdate, hdate, hmem⟩
    | none =>
      have hfresh : ∀ r ∈ current, r.batch_date ≠ normalize_batch_date d0 := by
        intro r hr hrd
        have : (find_one current (normalize_batch_date d0)).isSome := by
          refine List.find?_isSome.mpr ⟨r, hr, ?_⟩
          simp [hrd]
        rw [hcur] at this
        simp at this
      have hins : insert_one current (newBatchState (normalize_batch_date d0) now) =
          .ok (current ++ [newBatchState (normalize_batch_date d0) now]) := by
        unfold insert_one
        rw [show (newBatchState (normalize_batch_date d0) now).batch_date =
              normalize_batch_date d0 from rfl, hcur]
        rfl
      have hnil : current.filter (fun r => r.batch_date = normalize_batch_date d0) = [] := by
        refine List.filter_eq_nil_iff.mpr ?_
        intro b hb
        simp only [decide_eq_true_eq]
        exact hfresh b hb
      simp only [hsnap, hins]
      refine ⟨?_, ?_, rfl, ?_⟩
      · exact uniqueByDate_append_singleton current _ hu (fun r hr => hfresh r hr)
      · rw [List.filter_append, hnil]
        simp [newBatchState]
      · simp

/-- Witness for C6: a first call on the empty store creates the single
record for the day. -/
theorem C6_get_or_create_converges_witness :
    uniqueByDate (get_or_create_batch_state [] [] 43210 0).2 ∧
    ((get_or_create_batch_state [] [] 43210 0).2.filter
        (fun r => r.batch_date = normalize_batch_date 43210)).length = 1 :=
  ⟨(C6_get_or_create_converges [] [] 43210 0 (List.Pairwise.nil) (by simp)).1,
   (C6_get_or_create_converges [] [] 43210 0 (List.Pairwise.nil) (by simp)).2.1⟩

/-- The recovery branch chain computes exactly the specification's
eligibility rule. -/
theorem needs_evaluation_eq_eligibleSpec (st : BatchState) (hasData : Bool)
    (now : Timestamp) :
    needs_evaluation st hasData now = eligibleSpec st hasData now := by
  unfold needs_evaluation eligibleSpec
  cases hst : st.status <;> simp [hst]

/-- C7: code-bug exhibit. The sweep scan does select exactly the
specification's eligible days (COMPLETED and SKIPPED excluded,
FAILED/PARTIAL only when they can retry, PENDING only with data, stuck
RUNNING included), the invocations happen in ascending date order, and the
COMPLETED / FAILED-exhausted / never-touched scenario recovers exactly the
third day. But a stuck RUNNING day the scan selects never reaches the
orchestrator: `_recover_single_batch` re-checks `can_retry`, which is false
for the RUNNING status (nothing marks the day FAILED first), so the day
draws a critical max-retry alert instead of a `run_daily_evaluation` call —
against the claim that the orchestrator is invoked on the selected days. -/
theorem C7_stuck_running_never_recovered :
    (∀ (days : List Int) (info : Int → BatchState × Bool) (now : Timestamp),
      find_missing_evaluations days info now =
        days.filter (fun d => eligibleSpec (info d).1 (info d).2 now) ∧
      (recover_all_missed_batches days info now).Sorted (· ≤ ·)) ∧
    recover_all_missed_batches scenarioDays scenarioInfo 0 = [2 * secondsPerDay] ∧
    find_missing_evaluations stuckWindowDays stuckWindowInfo stuckNow = [0] ∧
    recover_single_action stuckState stuckNow = .maxRetryAlert ∧
    recover_all_missed_batches stuckWindowDays stuckWindowInfo stuckNow = [] := by
  have hscn : find_missing_evaluations scenarioDays scenarioInfo 0 = [2 * secondsPerDay] := by
    decide
  have hstk : find_missing_evaluations stuckWindowDays stuckWindowInfo stuckNow = [0] := by
    decide
  refine ⟨?_, ?_, hstk, by decide, ?_⟩
  · intro days info now
    constructor
    · exact List.filter_congr fun d _ =>
        needs_evaluation_eq_eligibleSpec (info d).1 (info d).2 now
    · unfold recover_all_missed_batches
      have h := @List.sorted_mergeSort Int
        (fun a b : Int => a ≤ b)
        (fun a b c hab hbc => by
          simp only [decide_eq_true_eq] at *
          exact le_trans hab hbc)
        (fun a b => by
          simp only [Bool.or_eq_true, decide_eq_true_eq]
          exact le_total a b)
        (find_missing_evaluations days info now)
      have hs : (List.mergeSort (find_missing_evaluations days info now)
          (fun a b : Int => a ≤ b)).Sorted (· ≤ ·) := by
        refine h.imp ?_
        intro a b hab
        simpa using hab
      exact hs.filter _
  · unfold recover_all_missed_batches
    rw [hscn, List.mergeSort_singleton]
    decide
  · unfold recover_all_missed_batches
    rw [hstk, List.mergeSort_singleton]
    decide

/-- C1: code-bug exhibit. On a completed run whose accuracy is at or above
the threshold (90 pass / 10 fail here), the report send is nested inside
the below-threshold branch, so neither alert nor report is sent (the only
notification of the day is the failure alert), `email_sent` stays false, and the leaked `email_duration` local raises `NameError`, turning
the day into a FAILED run with `run_daily_evaluation` returning false —
against the claim that the full report is always sent and `email_sent`
persisted true. Below the threshold (80/15/5) the claimed order does hold:
alert first, then the report, with `email_sent` persisted true. -/
theorem C1_report_not_sent_above_threshold :
    PyRat.eqv (calculate_batch_statistics pairsAboveThreshold "BATCH").accuracy ⟨9, 10⟩ ∧
    ¬ (calculate_batch_statistics pairsAboveThreshold "BATCH").accuracy
        < ACCURACY_THRESHOLD ∧
    (run_daily_evaluation pendingState true pairsAboveThreshold none 100).notifications
        = [.batchFailureAlert "high"] ∧
    (run_daily_evaluation pendingState true pairsAboveThreshold none 100).finalState.map
        BatchState.email_sent = some false ∧
    (run_daily_evaluation pendingState true pairsAboveThreshold none 100).finalState.map
        BatchState.status = some .failed ∧
    (run_daily_evaluation pendingState true pairsAboveThreshold none 100).finalState.map
        BatchState.error_type = some (some "NameError") ∧
    (run_daily_evaluation pendingState true pairsAboveThreshold none 100).returnValue
        = false ∧
    (run_daily_evaluation pendingState true pairsScenario none 100).notifications =
        [.accuracyAlert "high", .evaluationReport true "high"] ∧
    (run_daily_evaluation pendingState true pairsScenario none 100).finalState.map
        BatchState.email_sent = some true := by
  decide

/-- C2: code-bug exhibit. On a day with zero input pairs the pipeline does
move the state to SKIPPED, saves no evaluation results, sends exactly one
low-priority notification and returns true — but the orchestrator's success
epilogue then stamps COMPLETED over the SKIPPED status, so the persisted
final status is COMPLETED, against the claim that it stays SKIPPED. -/
theorem C2_empty_day_final_status_completed :
    (run_daily_evaluation pendingState true [] none 100).returnValue = true ∧
    (run_daily_evaluation pendingState true [] none 100).resultsSaved = false ∧
    (run_daily_evaluation pendingState true [] none 100).notifications =
        [.emptyBatchNotice "low"] ∧
    (execute_evaluation_pipeline
        { pendingState with status := .running, started_at := some 100 }
        [] none 100).state.status = .skipped ∧
    (run_daily_evaluation pendingState true [] none 100).finalState.map
        BatchState.status = some .completed := by
  decide

/-- C3: code-bug exhibit. For a stored FAILED day that the decision
procedure accepts, the orchestrator assigns RUNNING before testing whether
the status is FAILED, so the increment never fires: the persisted RUNNING
record carries the OLD retry count (0 here), against the claim that it
carries the incremented one. -/
theorem C3_retry_count_not_incremented :
    (should_process_batch failedOnceState 100 true).decision = true ∧
    failedOnceState.retry_count = 0 ∧
    (run_daily_evaluation failedOnceState true pairsScenario none 100).runningPersist.map
        BatchState.retry_count = some 0 ∧
    (run_daily_evaluation failedOnceState true pairsScenario none 100).runningPersist.map
        BatchState.status = some .running := by
  decide

/-- C4: code-bug exhibit. The statistics step computes
passed / (passed + failed), but constructing the `BatchEvaluation`
aggregate runs the `validate_accuracy` validator, which overrides the value
with round(passed / total_evaluations, 4) — errors back in the
denominator. On the 80 pass / 15 fail / 5 error scenario the recorded
accuracy is 0.8 (and is copied into the BatchState), not the claimed
round(80/95, 4) = 0.8421. -/
theorem C4_accuracy_denominator_includes_errors :
    PyRat.eqv (calculate_batch_statistics pairsScenario "BATCH").accuracy ⟨4, 5⟩ ∧
    PyRat.eqv (round4 ((PyRat.ofNat 80).div (PyRat.ofNat 95))) ⟨8421, 10000⟩ ∧
    ¬ PyRat.eqv (calculate_batch_statistics pairsScenario "BATCH").accuracy ⟨8421, 10000⟩ ∧
    (run_daily_evaluation pendingState true pairsScenario none 100).finalState.map
        BatchState.accuracy = some (some ⟨8000, 10000⟩) := by
  decide

/-- C8: an exception raised inside the orchestration steps is not
propagated (the run returns a result rather than re-raising): the final
persisted state is FAILED with the truncated error message, the error type
and `failed_at` set; exactly one failure alert is sent; the call returns
false; and when `CanRetry` holds of the state afterwards (retry budget
left and any retry delay unset or already elapsed; the status is FAILED by
then), `retry_after` is set to
now + min(5·2^retryCount, 60) minutes — which is 5, 10, 20 minutes for
retry counts 0, 1, 2, and never exceeds one hour. -/
theorem C8_exception_absorbed (state0 : BatchState) (hasData : Bool)
    (pairs : List EvaluationStatus) (e : PyError) (now : Timestamp)
    (hd : (should_process_batch state0 now hasData).decision = true) :
    (run_daily_evaluation state0 hasData pairs (some e) now).returnValue = false ∧
    (run_daily_evaluation state0 hasData pairs (some e) now).notifications =
      [.batchFailureAlert "high"] ∧
    (run_daily_evaluation state0 hasData pairs (some e) now).finalState.map
      BatchState.status = some .failed ∧
    (run_daily_evaluation state0 hasData pairs (some e) now).finalState.map
      BatchState.error_message = some (some (e.message.take 5000)) ∧
    (run_daily_evaluation state0 hasData pairs (some e) now).finalState.map
      BatchState.error_type = some (some e.etype) ∧
    (run_daily_evaluation state0 hasData pairs (some e) now).finalState.map
      BatchState.failed_at = some (some now) ∧
    (state0.retry_count < state0.max_retries →
      (state0.retry_after = none ∨ ∃ t, state0.retry_after = some t ∧ t ≤ now) →
      (run_daily_evaluation state0 hasData pairs (some e) now).finalState.map
        BatchState.retry_after =
        some (some (now + 60 * ((min (5 * 2 ^ state0.retry_count) 60 : Nat) : Int)))) ∧
    (min (5 * 2 ^ (0 : Nat)) 60 = 5 ∧ min (5 * 2 ^ (1 : Nat)) 60 = 10 ∧
      min (5 * 2 ^ (2 : Nat)) 60 = 20 ∧ ∀ k : Nat, min (5 * 2 ^ k) 60 ≤ 60) := by
  have hrun : run_daily_evaluation state0 hasData pairs (some e) now =
      (let state2 : BatchState :=
        { state0 with status := BatchStatus.running, started_at := some now }
      let stErr := state2.set_error e now
      let stErr2 :=
        if stErr.can_retry now then
          { stErr with
            retry_after := some (now + 60 * ((min (5 * 2 ^ stErr.retry_count) 60 : Nat) : Int)) }
        else stErr
      ⟨false, some state2, some stErr2, [.batchFailureAlert "high"], false⟩) := by
    simp [run_daily_evaluation, execute_evaluation_pipeline, hd]
  rw [hrun]
  by_cases hc : (({ state0 with status := BatchStatus.running, started_at := some now } : BatchState).set_error e now).can_retry now
  · simp only [BatchState.set_error] at hc
    refine ⟨rfl, rfl, ?_, ?_, ?_, ?_, ?_, by decide, by decide, by decide,
        fun k => min_le_right _ _⟩ <;>
      simp [BatchState.set_error, hc]
  · simp only [BatchState.set_error] at hc
    refine ⟨rfl, rfl, ?_, ?_, ?_, ?_, ?_, by decide, by decide, by decide,
        fun k => min_le_right _ _⟩
    · simp [BatchState.set_error, hc]
    · simp [BatchState.set_error, hc]
    · simp [BatchState.set_error, hc]
    · simp [BatchState.set_error, hc]
    · intro hrc hdelay
      exfalso
      apply hc
      rcases hdelay with hra | ⟨t, hra, hle⟩
      · simp [BatchState.can_retry, hra, BatchStatus.can_retry, Nat.not_le.mpr hrc]
      · simp [BatchState.can_retry, hra, BatchStatus.can_retry, Nat.not_le.mpr hrc,
          not_lt.mpr hle]

/-- Witness for C8 at a concrete fresh PENDING state and a concrete
exception, discharging the decision hypothesis and the retry-budget and
retry-delay side conditions of the backoff conjunct. -/
theorem C8_exception_absorbed_witness :
    (run_daily_evaluation (newBatchState 0 0) true [] (some ⟨"RuntimeError", "boom"⟩)
        100).returnValue = false ∧
    (run_daily_evaluation (newBatchState 0 0) true [] (some ⟨"RuntimeError", "boom"⟩)
        100).finalState.map BatchState.retry_after = some (some 400) :=
  have h := C8_exception_absorbed (newBatchState 0 0) true [] ⟨"RuntimeError", "boom"⟩ 100
    (by decide)
  ⟨h.1, by
    have h7 := h.2.2.2.2.2.2.1 (by decide) (Or.inl rfl)
    simpa using h7⟩

end BatchEval
